import Mathlib

/-!
Verification of the GameRMCR native overlay core: a shallow embedding of
`src/native/src/dxhook/dx11_hook.cpp` (presentation interception and frame
timing) and `src/native/src/overlay/imgui_overlay.cpp` (overlay composition),
with theorems settling the specified behaviour.

Modelling conventions:
* C++ `float` values are modelled as `ℚ` (the claims are about the
  arithmetic structure of the code, not about rounding of IEEE floats).
* Clock timestamps (`std::chrono::high_resolution_clock::time_point`) are
  modelled as integer microsecond counts, matching the
  `duration_cast<microseconds>` granularity the code reads deltas at.
* `HRESULT` return codes are modelled as `ℤ`; swap-chain handles and the
  `UINT` arguments as `ℕ`.
-/

namespace GameRMCR

/-- The per-instance state of `DX11Hook` relevant to frame timing
(fields `lastFrameTime`, `currentFPS`, `frameTime`, `frameCount`,
`fpsAccumulator` of `dx11_hook.h`). -/
structure TimerState where
  lastFrameTime : ℤ
  currentFPS : ℚ
  frameTime : ℚ
  frameCount : ℕ
  fpsAccumulator : ℚ
  deriving Repr, DecidableEq

/-- `DX11Hook::CalculateFPS` (dx11_hook.cpp lines 66-81): computes the
frame delta in milliseconds from the stored last timestamp, stores the new
timestamp, accumulates, and republishes `currentFPS` when the accumulator
reaches 500 ms, resetting the window. `now` is the current clock reading in
microseconds. -/
def calculateFPS (st : TimerState) (now : ℤ) : TimerState :=
  let ft : ℚ := (now - st.lastFrameTime : ℤ) / 1000
  let fc : ℕ := st.frameCount + 1
  let acc : ℚ := st.fpsAccumulator + ft
  if acc ≥ 500 then
    { lastFrameTime := now, frameTime := ft, frameCount := 0, fpsAccumulator := 0,
      currentFPS := (fc : ℚ) * 1000 / acc }
  else
    { lastFrameTime := now, frameTime := ft, frameCount := fc, fpsAccumulator := acc,
      currentFPS := st.currentFPS }

/-- `DX11Hook::GetFPS` (dx11_hook.cpp lines 94-96). -/
def getFPS (st : TimerState) : ℚ := st.currentFPS

/-- `DX11Hook::GetFrameTime` (dx11_hook.cpp lines 98-100). -/
def getFrameTime (st : TimerState) : ℚ := st.frameTime

/-- Folding a sequence of intercepted-presentation ticks over the timer. -/
def ticks (st : TimerState) (ts : List ℤ) : TimerState :=
  ts.foldl calculateFPS st

/-- The timer state right after a successful `DX11Hook::Initialize` that ran
at clock reading `tInit`: `Initialize` seeds `lastFrameTime` with the current
time (dx11_hook.cpp line 48) and the remaining timing fields keep their
in-class initial values (dx11_hook.h). -/
def initializedTimer (tInit : ℤ) : TimerState :=
  { lastFrameTime := tInit, currentFPS := 0, frameTime := 0, frameCount := 0,
    fpsAccumulator := 0 }

/-- `noUpdate st ts` says that along the tick sequence `ts` starting from
`st`, the 500 ms threshold is never reached, i.e. no tick republishes FPS. -/
def noUpdate : TimerState → List ℤ → Prop
  | _, [] => True
  | st, t :: ts =>
      st.fpsAccumulator + ((t - st.lastFrameTime : ℤ) : ℚ) / 1000 < 500 ∧
        noUpdate (calculateFPS st t) ts

instance : ∀ st ts, Decidable (noUpdate st ts)
  | _, [] => .isTrue trivial
  | st, t :: ts =>
      have : Decidable (noUpdate (calculateFPS st t) ts) := instDecidableNoUpdate _ _
      instDecidableAnd

/-- `DX11Hook::HookedPresent` (dx11_hook.cpp lines 83-92), with the captured
original `Present` entry point modelled as an oracle `orig` and the calls
made to it recorded as a trace (second component). The body runs
`CalculateFPS` — total straight-line code; the overlay draw at this point in
the source is absent (commented out) — and then forwards to the original
with the arguments it received, returning that call's `HRESULT`. -/
def hookedPresent (orig : ℕ → ℕ → ℕ → ℤ) (st : TimerState) (now : ℤ)
    (pSwapChain syncInterval flags : ℕ) :
    TimerState × List (ℕ × ℕ × ℕ) × ℤ :=
  let st1 := calculateFPS st now
  (st1, [(pSwapChain, syncInterval, flags)], orig pSwapChain syncInterval flags)

/-- The full per-instance state of `DX11Hook` (dx11_hook.h): the captured
original entry-point address (`none` before capture), the installed flag,
the timing state, and the pushed telemetry metrics. -/
structure HookState where
  originalPresent : Option ℕ
  initialized : Bool
  timer : TimerState
  cpuUsage : ℚ
  cpuTemp : ℚ
  gpuUsage : ℚ
  gpuTemp : ℚ
  ramUsage : ℤ
  vramUsage : ℤ
  deriving Repr, DecidableEq

/-- `DX11Hook::Initialize` (dx11_hook.cpp lines 10-61). `device` models the
outcome of creating the dummy device/swap chain and reading `vtable[8]`:
`none` when `D3D11CreateDeviceAndSwapChain` fails, `some present` the
captured `Present` address otherwise; `now` is the clock reading stored into
`lastFrameTime`. Returns the new state and the `bool` result. Already
installed: returns `true` immediately, touching nothing. -/
def hookInitialize (st : HookState) (device : Option ℕ) (now : ℤ) :
    HookState × Bool :=
  if st.initialized = true then (st, true)
  else
    match device with
    | none => (st, false)
    | some present =>
        ({ st with
            originalPresent := some present, initialized := true,
            timer := { st.timer with lastFrameTime := now } }, true)

/-- `DX11Hook::SetMetrics` (dx11_hook.cpp lines 102-109). -/
def setMetrics (st : HookState) (cpu cpuT gpu gpuT : ℚ) (ram vram : ℤ) :
    HookState :=
  { st with
    cpuUsage := cpu, cpuTemp := cpuT, gpuUsage := gpu, gpuTemp := gpuT,
    ramUsage := ram, vramUsage := vram }

/-! ## Overlay composition (`imgui_overlay.cpp`)

The C `snprintf` conversions used by the overlay are modelled on `ℚ`:
`%.1f` and `%.0f` round the magnitude to the nearest multiple of 0.1
(resp. 1) and print it with one (resp. zero) decimals, and `%d` prints a
decimal integer. -/

/-- The character for a decimal digit value. -/
def digitChar (n : ℕ) : Char := Char.ofNat (48 + n)

/-- Decimal digit expansion of a natural number, most significant first,
with explicit fuel for structural recursion. -/
def natDigits : ℕ → ℕ → List Char
  | 0, _ => []
  | fuel + 1, n => if n < 10 then [digitChar n] else natDigits fuel (n / 10) ++ [digitChar (n % 10)]

/-- Decimal rendering of a natural number. -/
def natRepr (n : ℕ) : String := ⟨natDigits (n + 1) n⟩

/-- Rounding to the nearest integer, halves up (applied to magnitudes). -/
def rnd (q : ℚ) : ℤ := Rat.floor (q + 1 / 2)

/-- The `%.1f` conversion. -/
def fmt1 (q : ℚ) : String :=
  let n : ℕ := (rnd (|q| * 10)).toNat
  (if q < 0 then "-" else "") ++ natRepr (n / 10) ++ "." ++ natRepr (n % 10)

/-- The `%.0f` conversion. -/
def fmt0 (q : ℚ) : String :=
  (if q < 0 then "-" else "") ++ natRepr (rnd |q|).toNat

/-- The `%d` conversion. -/
def intRepr (i : ℤ) : String :=
  (if i < 0 then "-" else "") ++ natRepr i.natAbs

/-- `struct OverlayMetrics` (imgui_overlay.h). -/
structure OverlayMetrics where
  fps : ℚ
  frameTime : ℚ
  cpuUsage : ℚ
  cpuTemp : ℚ
  gpuUsage : ℚ
  gpuTemp : ℚ
  ramUsage : ℤ
  vramUsage : ℤ
  deriving Repr, DecidableEq

/-- `struct OverlayConfig` (imgui_overlay.h). -/
structure OverlayConfig where
  fontFamily : String
  fontSize : ℤ
  color : ℚ × ℚ × ℚ × ℚ
  opacity : ℚ
  showFPS : Bool
  showCPU : Bool
  showGPU : Bool
  showRAM : Bool
  showTemps : Bool
  deriving Repr, DecidableEq

/-- The in-class member initializers of `OverlayConfig` (imgui_overlay.h). -/
def defaultOverlayConfig : OverlayConfig :=
  { fontFamily := "Segoe UI", fontSize := 14, color := (0, 1, 1 / 2, 1),
    opacity := 4 / 5, showFPS := true, showCPU := true, showGPU := true,
    showRAM := true, showTemps := true }

/-- `ImGuiOverlay::GetRenderedText` (imgui_overlay.cpp lines 137-177):
the composed overlay text, accumulated chunk by chunk exactly as the
source appends its `snprintf` results to `result`. -/
def getRenderedText (cfg : OverlayConfig) (m : OverlayMetrics) : String :=
  let r := ""
  let r := if cfg.showFPS then r ++ ("FPS: " ++ fmt1 m.fps ++ "\n") else r
  let r :=
    if cfg.showCPU then
      let r := r ++ ("CPU: " ++ fmt1 m.cpuUsage ++ "%")
      let r := if cfg.showTemps then r ++ (" (" ++ fmt0 m.cpuTemp ++ "°C)") else r
      r ++ "\n"
    else r
  let r :=
    if cfg.showGPU then
      let r := r ++ ("GPU: " ++ fmt1 m.gpuUsage ++ "%")
      let r := if cfg.showTemps then r ++ (" (" ++ fmt0 m.gpuTemp ++ "°C)") else r
      r ++ "\n"
    else r
  if cfg.showRAM then
    r ++ ("RAM: " ++ intRepr m.ramUsage ++ " MB\n") ++
      ("VRAM: " ++ intRepr m.vramUsage ++ " MB\n")
  else r

/-- The successive `snprintf` writes of `ImGuiOverlay::Render`
(imgui_overlay.cpp lines 70-103), in source order with their guards; the
`Render` buffer content is their concatenation. -/
def renderChunks (cfg : OverlayConfig) (m : OverlayMetrics) : List String :=
  (if cfg.showFPS then ["FPS: " ++ fmt1 m.fps ++ "\n"] else []) ++
  (if cfg.showCPU then
      ["CPU: " ++ fmt1 m.cpuUsage ++ "%"] ++
      (if cfg.showTemps then [" (" ++ fmt0 m.cpuTemp ++ "°C)"] else []) ++ ["\n"]
    else []) ++
  (if cfg.showGPU then
      ["GPU: " ++ fmt1 m.gpuUsage ++ "%"] ++
      (if cfg.showTemps then [" (" ++ fmt0 m.gpuTemp ++ "°C)"] else []) ++ ["\n"]
    else []) ++
  (if cfg.showRAM then
      ["RAM: " ++ intRepr m.ramUsage ++ " MB\n",
       "VRAM: " ++ intRepr m.vramUsage ++ " MB\n"]
    else [])

/-- The five overlay lines, in the fixed order the compositor emits them. -/
inductive LineTag where
  | fps | cpu | gpu | ram | vram
  deriving Repr, DecidableEq

/-- The text of each overlay line for a given snapshot (`temps` is the
`showTemps` flag, controlling the temperature suffix of the CPU and GPU
lines). The trailing newline is not part of the line. -/
def lineFor (m : OverlayMetrics) (temps : Bool) : LineTag → String
  | .fps => "FPS: " ++ fmt1 m.fps
  | .cpu => "CPU: " ++ fmt1 m.cpuUsage ++ "%" ++
      (if temps then " (" ++ fmt0 m.cpuTemp ++ "°C)" else "")
  | .gpu => "GPU: " ++ fmt1 m.gpuUsage ++ "%" ++
      (if temps then " (" ++ fmt0 m.gpuTemp ++ "°C)" else "")
  | .ram => "RAM: " ++ intRepr m.ramUsage ++ " MB"
  | .vram => "VRAM: " ++ intRepr m.vramUsage ++ " MB"

/-- The visibility flag gating each line: `showRAM` gates both the RAM and
the VRAM line; the other flags gate exactly one line each. -/
def gateOf (cfg : OverlayConfig) : LineTag → Bool
  | .fps => cfg.showFPS
  | .cpu => cfg.showCPU
  | .gpu => cfg.showGPU
  | .ram => cfg.showRAM
  | .vram => cfg.showRAM

/-- The fixed emission order of the overlay lines. -/
def lineOrder : List LineTag := [.fps, .cpu, .gpu, .ram, .vram]

/-- The temperature suffix `showTemps` appends: nonempty exactly on the CPU
and GPU lines. -/
def tempSuffix (m : OverlayMetrics) : LineTag → String
  | .cpu => " (" ++ fmt0 m.cpuTemp ++ "°C)"
  | .gpu => " (" ++ fmt0 m.gpuTemp ++ "°C)"
  | _ => ""

/-- The static state of `ImGuiOverlay` (imgui_overlay.cpp lines 6-12). -/
structure OverlayState where
  isVisible : Bool
  initialized : Bool
  posX : ℤ
  posY : ℤ
  opacity : ℚ
  config : OverlayConfig
  deriving Repr, DecidableEq

/-- The static initializers of `ImGuiOverlay` (imgui_overlay.cpp lines
6-12): visible, not initialized, position (10,10), opacity 0.8, and the
in-class defaults of `OverlayConfig`. -/
def initialOverlayState : OverlayState :=
  { isVisible := true, initialized := false, posX := 10, posY := 10,
    opacity := 4 / 5, config := defaultOverlayConfig }

/-- `ImGuiOverlay::Render` (imgui_overlay.cpp lines 49-114): early return
when not visible or not initialized; otherwise builds the overlay text in a
local buffer (the draw calls in the source are commented out, so the built
buffer is the observable output, returned here as the second component).
The static state is never mutated. -/
def render (st : OverlayState) (m : OverlayMetrics) : OverlayState × Option String :=
  if st.isVisible = false ∨ st.initialized = false then (st, none)
  else (st, some (String.join (renderChunks st.config m)))

/-- `ImGuiOverlay::Initialize` (imgui_overlay.cpp lines 14-36): returns
immediately when already initialized; otherwise overwrites `config`'s
`fontSize`, visibility flags, `fontFamily` and `color` with the documented
defaults — leaving `config.opacity` untouched — and marks the overlay
initialized. -/
def overlayInitialize (st : OverlayState) : OverlayState :=
  if st.initialized = true then st
  else
    { st with
      initialized := true,
      config :=
        { fontFamily := "Segoe UI", fontSize := 14, color := (0, 1, 1 / 2, 1),
          opacity := st.config.opacity, showFPS := true, showCPU := true,
          showGPU := true, showRAM := true, showTemps := true } }

/-- `ImGuiOverlay::SetConfig` (imgui_overlay.cpp lines 129-131). -/
def setConfig (st : OverlayState) (cfg : OverlayConfig) : OverlayState :=
  { st with config := cfg }

/-- The exported `SetMetrics` of main.cpp (lines 35-48): pushes the
telemetry into the `DX11Hook` singleton and fills the global
`OverlayMetrics` with the pushed values plus the hook's current FPS and
frame time. -/
def dllSetMetrics (hook : HookState) (cpu cpuT gpu gpuT : ℚ) (ram vram : ℤ) :
    HookState × OverlayMetrics :=
  let hook' := setMetrics hook cpu cpuT gpu gpuT ram vram
  (hook',
    { fps := getFPS hook'.timer, frameTime := getFrameTime hook'.timer,
      cpuUsage := cpu, cpuTemp := cpuT, gpuUsage := gpu, gpuTemp := gpuT,
      ramUsage := ram, vramUsage := vram })

/-- UTF-8 byte length of a character list. -/
def byteLenL : List Char → ℕ
  | [] => 0
  | c :: cs => c.utf8Size + byteLenL cs

/-- UTF-8 byte length of a string: the number of `char`s the corresponding
`snprintf` write occupies in the 512-byte buffer of `ImGuiOverlay::Render`. -/
def byteLen (s : String) : ℕ := byteLenL s.data

/-- An all-zero telemetry snapshot, used as a concrete witness input. -/
def zeroMetrics : OverlayMetrics :=
  { fps := 0, frameTime := 0, cpuUsage := 0, cpuTemp := 0, gpuUsage := 0,
    gpuTemp := 0, ramUsage := 0, vramUsage := 0 }

/-- A configuration with a non-default opacity, as a client could push
through `SetConfig` before the compositor is initialized. -/
def customConfig : OverlayConfig :=
  { defaultOverlayConfig with opacity := 1 / 2 }

/-! ## Theorems -/

theorem rnd_eq_floor (q : ℚ) : rnd q = ⌊q + 1 / 2⌋ := by
  rw [rnd, Rat.floor_def' _, ← Rat.floor_def]

theorem calculateFPS_of_ge (st : TimerState) (now : ℤ)
    (h : st.fpsAccumulator + ((now - st.lastFrameTime : ℤ) : ℚ) / 1000 ≥ 500) :
    calculateFPS st now =
      { lastFrameTime := now,
        frameTime := ((now - st.lastFrameTime : ℤ) : ℚ) / 1000,
        frameCount := 0, fpsAccumulator := 0,
        currentFPS := ((st.frameCount + 1 : ℕ) : ℚ) * 1000 /
          (st.fpsAccumulator + ((now - st.lastFrameTime : ℤ) : ℚ) / 1000) } := by
  simp only [calculateFPS, if_pos h]

theorem calculateFPS_of_lt (st : TimerState) (now : ℤ)
    (h : st.fpsAccumulator + ((now - st.lastFrameTime : ℤ) : ℚ) / 1000 < 500) :
    calculateFPS st now =
      { lastFrameTime := now,
        frameTime := ((now - st.lastFrameTime : ℤ) : ℚ) / 1000,
        frameCount := st.frameCount + 1,
        fpsAccumulator := st.fpsAccumulator + ((now - st.lastFrameTime : ℤ) : ℚ) / 1000,
        currentFPS := st.currentFPS } := by
  simp only [calculateFPS, if_neg (not_le.mpr h)]

theorem noUpdate_preserves_fps :
    ∀ (ts : List ℤ) (st : TimerState), noUpdate st ts → getFPS (ticks st ts) = getFPS st := by
  intro ts
  induction ts with
  | nil => intro st _; rfl
  | cons t ts ih =>
      intro st h
      obtain ⟨hlt, hrest⟩ := h
      have hstep : getFPS (calculateFPS st t) = getFPS st := by
        rw [calculateFPS_of_lt st t hlt]
        rfl
      calc getFPS (ticks (calculateFPS st t) ts) = getFPS (calculateFPS st t) := ih _ hrest
        _ = getFPS st := hstep

/-- **C2**. For every tick, the published `currentFPS` changes only when the
accumulated frame time reaches 500 ms; at such a tick it is set to
`frameCount * 1000 / accumulatedMs` and the window is reset; below the
threshold `currentFPS`, as returned by `GetFPS`, is unchanged and the window
keeps accumulating; and along any stretch of ticks that never reaches the
threshold `GetFPS` returns the previously published value unchanged. -/
theorem fps_window_update (st : TimerState) (now : ℤ) :
    (getFPS (calculateFPS st now) ≠ getFPS st →
      st.fpsAccumulator + ((now - st.lastFrameTime : ℤ) : ℚ) / 1000 ≥ 500) ∧
    (st.fpsAccumulator + ((now - st.lastFrameTime : ℤ) : ℚ) / 1000 ≥ 500 →
      getFPS (calculateFPS st now) =
        ((st.frameCount + 1 : ℕ) : ℚ) * 1000 /
          (st.fpsAccumulator + ((now - st.lastFrameTime : ℤ) : ℚ) / 1000) ∧
      (calculateFPS st now).frameCount = 0 ∧
      (calculateFPS st now).fpsAccumulator = 0) ∧
    (st.fpsAccumulator + ((now - st.lastFrameTime : ℤ) : ℚ) / 1000 < 500 →
      getFPS (calculateFPS st now) = getFPS st ∧
      (calculateFPS st now).frameCount = st.frameCount + 1 ∧
      (calculateFPS st now).fpsAccumulator =
        st.fpsAccumulator + ((now - st.lastFrameTime : ℤ) : ℚ) / 1000) ∧
    (∀ ts : List ℤ, noUpdate st ts → getFPS (ticks st ts) = getFPS st) := by
  refine ⟨?_, ?_, ?_, fun ts h => noUpdate_preserves_fps ts st h⟩
  · intro hne
    by_contra hlt
    exact hne (by rw [calculateFPS_of_lt st now (not_le.mp hlt)]; rfl)
  · intro hge
    rw [calculateFPS_of_ge st now hge]
    exact ⟨rfl, rfl, rfl⟩
  · intro hlt
    rw [calculateFPS_of_lt st now hlt]
    exact ⟨rfl, rfl, rfl⟩

/-- Witness for `fps_window_update`: a concrete tick that crosses the 500 ms
threshold (600 ms after the seed) publishes `1 * 1000 / 600 = 5/3` FPS and
resets the window, and a concrete below-threshold tick leaves FPS at 0. -/
theorem fps_window_update_witness :
    getFPS (calculateFPS (initializedTimer 0) 600000) = 5 / 3 ∧
      (calculateFPS (initializedTimer 0) 600000).frameCount = 0 ∧
      (calculateFPS (initializedTimer 0) 600000).fpsAccumulator = 0 ∧
      getFPS (calculateFPS (initializedTimer 0) 1000) = getFPS (initializedTimer 0) := by
  have h1 := fps_window_update (initializedTimer 0) 600000
  have h2 := fps_window_update (initializedTimer 0) 1000
  obtain ⟨hv, hc, ha⟩ := h1.2.1 (by norm_num [initializedTimer])
  refine ⟨?_, hc, ha, (h2.2.2.1 (by norm_num [initializedTimer])).1⟩
  rw [hv]
  norm_num [initializedTimer]

theorem calculateFPS_lastFrameTime (st : TimerState) (now : ℤ) :
    (calculateFPS st now).lastFrameTime = now := by
  simp only [calculateFPS]
  split <;> rfl

theorem calculateFPS_frameTime (st : TimerState) (now : ℤ) :
    (calculateFPS st now).frameTime = ((now - st.lastFrameTime : ℤ) : ℚ) / 1000 := by
  simp only [calculateFPS]
  split <;> rfl

theorem ticks_lastFrameTime :
    ∀ (ts : List ℤ) (st : TimerState),
      (ticks st ts).lastFrameTime = ts.getLastD st.lastFrameTime := by
  intro ts
  induction ts with
  | nil => intro st; rfl
  | cons t ts ih =>
      intro st
      show (ticks (calculateFPS st t) ts).lastFrameTime = _
      rw [ih, calculateFPS_lastFrameTime, List.getLastD_cons]

/-- **C3 counterexample**. The claim says `lastFrameTimeMs()` after the very
first tick `tick(t1)` is 0; on the code it is `t1 - tInit` (the Initialize
timestamp is the seed), here 5 ms ≠ 0 for a first tick 5000 µs after
install. -/
theorem first_tick_frame_time_not_zero :
    getFrameTime (ticks (initializedTimer 0) [5000]) = 5 ∧ (5 : ℚ) ≠ 0 := by
  constructor
  · show (calculateFPS (initializedTimer 0) 5000).frameTime = 5
    rw [calculateFPS_frameTime]
    norm_num [initializedTimer]
  · norm_num

/-- **C3 (amended)**. For every sequence of ticks with strictly increasing
timestamps after install, `GetFrameTime` after `tick(tk)` returns
`tk - t(k-1)` in milliseconds for `k > 1`; for `k = 1` it returns
`t1 - tInit`, the delta from the Initialize-time seed of `lastFrameTime`
(not 0). -/
theorem frame_time_is_last_delta (tInit : ℤ) (ts : List ℤ) (t : ℤ)
    (hmono : List.Chain' (· < ·) (tInit :: (ts ++ [t]))) :
    getFrameTime (ticks (initializedTimer tInit) (ts ++ [t])) =
      ((t - ts.getLastD tInit : ℤ) : ℚ) / 1000 := by
  have : ticks (initializedTimer tInit) (ts ++ [t]) =
      calculateFPS (ticks (initializedTimer tInit) ts) t := by
    simp [ticks, List.foldl_append]
  rw [this]
  show (calculateFPS (ticks (initializedTimer tInit) ts) t).frameTime = _
  rw [calculateFPS_frameTime, ticks_lastFrameTime]
  rfl

/-- Witness for `frame_time_is_last_delta`: ticks at 1000 µs and 3000 µs
after install at 0 leave a last frame time of 2 ms. -/
theorem frame_time_is_last_delta_witness :
    getFrameTime (ticks (initializedTimer 0) ([1000] ++ [3000])) = 2 := by
  have h := frame_time_is_last_delta 0 [1000] 3000 (by norm_num [List.chain'_cons])
  rw [h]
  norm_num

/-- **C4 counterexample**. The claim says the very first tick reports a frame
time of 0 ms for every possible delay between install and the first
intercepted presentation call; with install at 0 and the first call 7000 µs
later the code reports 7 ms ≠ 0. -/
theorem first_tick_reports_install_delay :
    getFrameTime (calculateFPS (initializedTimer 0) 7000) = 7 ∧ (7 : ℚ) ≠ 0 := by
  constructor
  · rw [show getFrameTime (calculateFPS (initializedTimer 0) 7000) =
        (calculateFPS (initializedTimer 0) 7000).frameTime from rfl,
      calculateFPS_frameTime]
    norm_num [initializedTimer]
  · norm_num

/-- **C4 (amended)**. `Initialize` (not the first tick) seeds the stored last
timestamp, with the install time; the first `CalculateFPS` call then reports
a frame time of `(t1 - tInit)` milliseconds — the delay between install and
the first intercepted presentation call — and re-seeds `lastFrameTime` with
`t1`. The reported value is 0 only when that delay is 0. -/
theorem first_tick_delta_from_install (tInit t : ℤ) (h : tInit ≤ t) :
    getFrameTime (calculateFPS (initializedTimer tInit) t) =
      ((t - tInit : ℤ) : ℚ) / 1000 ∧
    (calculateFPS (initializedTimer tInit) t).lastFrameTime = t ∧
    (initializedTimer tInit).lastFrameTime = tInit := by
  refine ⟨?_, calculateFPS_lastFrameTime _ _, rfl⟩
  rw [show getFrameTime (calculateFPS (initializedTimer tInit) t) =
      (calculateFPS (initializedTimer tInit) t).frameTime from rfl,
    calculateFPS_frameTime]
  rfl

/-- Witness for `first_tick_delta_from_install` at install time 0 and first
tick 2000 µs: 2 ms reported. -/
theorem first_tick_delta_from_install_witness :
    getFrameTime (calculateFPS (initializedTimer 0) 2000) = ((2000 - 0 : ℤ) : ℚ) / 1000 :=
  (first_tick_delta_from_install 0 2000 (by norm_num)).1

/-- **C1**. Every intercepted presentation call invokes the captured original
`Present` exactly once, with exactly the three arguments it received (the
trace of calls to the original is the one-element list of those arguments),
and returns that call's return code unchanged; this holds for every timer
state and timestamp, the timing code being total (and the overlay call being
absent) so that no failure before the forward can occur. -/
theorem hookedPresent_forwards_once (orig : ℕ → ℕ → ℕ → ℤ) (st : TimerState)
    (now : ℤ) (pSwapChain syncInterval flags : ℕ) :
    (hookedPresent orig st now pSwapChain syncInterval flags).2.1 =
      [(pSwapChain, syncInterval, flags)] ∧
    (hookedPresent orig st now pSwapChain syncInterval flags).2.2 =
      orig pSwapChain syncInterval flags ∧
    (hookedPresent orig st now pSwapChain syncInterval flags).1 =
      calculateFPS st now :=
  ⟨rfl, rfl, rfl⟩

/-- **C8**. Calling `Initialize` again while already installed returns
success immediately and leaves the whole interception state — captured
original entry point, timing state, and everything else — unchanged, for
every device-creation outcome and clock reading; the already-installed case
is never reported as an error. -/
theorem hookInitialize_idempotent (st : HookState) (device : Option ℕ)
    (now : ℤ) (h : st.initialized = true) :
    hookInitialize st device now = (st, true) := by
  unfold hookInitialize
  rw [if_pos h]

/-- Witness for `hookInitialize_idempotent` on a concrete installed state. -/
theorem hookInitialize_idempotent_witness :
    hookInitialize
      { originalPresent := some 42, initialized := true,
        timer := initializedTimer 0, cpuUsage := 0, cpuTemp := 0,
        gpuUsage := 0, gpuTemp := 0, ramUsage := 0, vramUsage := 0 }
      none 99 =
    ({ originalPresent := some 42, initialized := true,
       timer := initializedTimer 0, cpuUsage := 0, cpuTemp := 0,
       gpuUsage := 0, gpuTemp := 0, ramUsage := 0, vramUsage := 0 }, true) :=
  hookInitialize_idempotent _ none 99 rfl

theorem getRenderedText_eq_join (cfg : OverlayConfig) (m : OverlayMetrics) :
    getRenderedText cfg m =
      String.join ((lineOrder.filter (fun tag => gateOf cfg tag)).map
        (fun tag => lineFor m cfg.showTemps tag ++ "\n")) := by
  obtain ⟨ff, fs, col, op, f1, f2, f3, f4, f5⟩ := cfg
  cases f1 <;> cases f2 <;> cases f3 <;> cases f4 <;> cases f5 <;>
    simp [getRenderedText, lineOrder, gateOf, lineFor, String.join,
      String.append_assoc, String.append_empty, String.empty_append]

/-- **C5**. The composed overlay text is exactly the concatenation, in the
fixed order FPS, CPU, GPU, RAM, VRAM, of the newline-terminated lines whose
gate is on — `showFPS`, `showCPU`, `showGPU` gate their single line,
`showRAM` gates both the RAM and the VRAM line — so setting any single flag
to false removes exactly the line(s) it gates and no other, keeps the
relative order of the remaining lines, and emits no blank placeholder; and
`showTemps` changes only the CPU and GPU lines, by appending their
temperature suffix. -/
theorem composed_lines_gated (cfg : OverlayConfig) (m : OverlayMetrics) :
    getRenderedText cfg m =
      String.join ((lineOrder.filter (fun tag => gateOf cfg tag)).map
        (fun tag => lineFor m cfg.showTemps tag ++ "\n")) ∧
    (∀ tag, lineFor m true tag = lineFor m false tag ++ tempSuffix m tag) := by
  refine ⟨getRenderedText_eq_join cfg m, ?_⟩
  intro tag
  cases tag <;>
    simp [lineFor, tempSuffix, String.append_empty, String.append_assoc]

/-- **C7**. `Render` with the overlay not visible or the compositor not
initialized is a no-op: it returns (no failure — the function is total),
draws nothing, and leaves the overlay state unchanged; moreover `Render`
never mutates the overlay state on any input. -/
theorem render_noop_when_hidden (st : OverlayState) (m : OverlayMetrics)
    (h : st.isVisible = false ∨ st.initialized = false) :
    render st m = (st, none) ∧
    (∀ (st' : OverlayState) (m' : OverlayMetrics), (render st' m').1 = st') := by
  constructor
  · unfold render
    rw [if_pos h]
  · intro st' m'
    unfold render
    split <;> rfl

/-- Witness for `render_noop_when_hidden`: rendering while hidden returns
the state unchanged and no output. -/
theorem render_noop_when_hidden_witness :
    render { initialOverlayState with isVisible := false } zeroMetrics =
      ({ initialOverlayState with isVisible := false }, none) :=
  (render_noop_when_hidden _ _ (Or.inl rfl)).1

/-- **C10 counterexample**. A configuration with opacity 0.5 pushed through
`SetConfig` before the compositor is initialized is NOT fully discarded by
the first `Initialize`: `config.opacity` keeps the pushed 0.5 instead of
being reset to the documented default 0.8. -/
theorem setConfig_opacity_survives_init :
    (overlayInitialize (setConfig initialOverlayState customConfig)).config.opacity
      = 1 / 2 ∧ ((1 : ℚ) / 2) ≠ 4 / 5 := by
  constructor
  · rfl
  · norm_num

/-- **C10 (amended)**. The first `Initialize` call overwrites `fontSize`,
`fontFamily`, `color` and all five visibility flags of the stored
configuration with their documented defaults — so values set through the
per-field setters (which only touch those fields) before initialization are
discarded — but it does not overwrite `config.opacity`, so an opacity value
set through `SetConfig` before initialization survives; subsequent
`Initialize` calls leave the configuration (and the whole overlay state)
unchanged. -/
theorem overlayInitialize_config (st : OverlayState) (cfg : OverlayConfig)
    (h : st.initialized = false) :
    (overlayInitialize (setConfig st cfg)).config =
      { fontFamily := "Segoe UI", fontSize := 14, color := (0, 1, 1 / 2, 1),
        opacity := cfg.opacity, showFPS := true, showCPU := true,
        showGPU := true, showRAM := true, showTemps := true } ∧
    (∀ st' : OverlayState, st'.initialized = true → overlayInitialize st' = st') := by
  constructor
  · unfold overlayInitialize setConfig
    rw [if_neg (by simp [h])]
  · intro st' h'
    unfold overlayInitialize
    rw [if_pos h']

/-- Witness for `overlayInitialize_config` on the initial overlay statics. -/
theorem overlayInitialize_config_witness :
    (overlayInitialize (setConfig initialOverlayState defaultOverlayConfig)).config =
      { fontFamily := "Segoe UI", fontSize := 14, color := (0, 1, 1 / 2, 1),
        opacity := defaultOverlayConfig.opacity, showFPS := true, showCPU := true,
        showGPU := true, showRAM := true, showTemps := true } :=
  (overlayInitialize_config initialOverlayState defaultOverlayConfig rfl).1

theorem fmt1_eval (q : ℚ) (n : ℤ) (hq : ¬q < 0) (h : rnd (|q| * 10) = n) :
    fmt1 q = natRepr (n.toNat / 10) ++ "." ++ natRepr (n.toNat % 10) := by
  simp only [fmt1, h, if_neg hq, String.empty_append]

theorem fmt0_eval (q : ℚ) (n : ℤ) (hq : ¬q < 0) (h : rnd |q| = n) :
    fmt0 q = natRepr n.toNat := by
  simp only [fmt0, h, if_neg hq, String.empty_append]

/-- **C6**. After pushing telemetry `(50.0, 65.0, 80.0, 70.0, 8192, 4096)`
through the exported `SetMetrics`, composing the overlay text with all
visibility flags true (the defaults) yields exactly the lines
`FPS: <x>` (`x` the current FPS to one decimal place),
`CPU: 50.0% (65°C)`, `GPU: 80.0% (70°C)`, `RAM: 8192 MB`, `VRAM: 4096 MB`,
in that order: one decimal place for percentages and FPS, zero decimals for
temperatures, integer megabytes for memory. -/
theorem concrete_telemetry_text (hook : HookState) :
    getRenderedText defaultOverlayConfig
        (dllSetMetrics hook 50 65 80 70 8192 4096).2 =
      "FPS: " ++ fmt1 (getFPS hook.timer) ++ "\n" ++
      "CPU: 50.0% (65°C)" ++ "\n" ++ "GPU: 80.0% (70°C)" ++ "\n" ++
      "RAM: 8192 MB" ++ "\n" ++ "VRAM: 4096 MB" ++ "\n" := by
  have e1 : fmt1 (50 : ℚ) = "50.0" := by
    rw [fmt1_eval 50 500 (by norm_num) (by rw [rnd_eq_floor]; norm_num)]
    decide
  have e2 : fmt0 (65 : ℚ) = "65" := by
    rw [fmt0_eval 65 65 (by norm_num) (by rw [rnd_eq_floor]; norm_num)]
    decide
  have e3 : fmt1 (80 : ℚ) = "80.0" := by
    rw [fmt1_eval 80 800 (by norm_num) (by rw [rnd_eq_floor]; norm_num)]
    decide
  have e4 : fmt0 (70 : ℚ) = "70" := by
    rw [fmt0_eval 70 70 (by norm_num) (by rw [rnd_eq_floor]; norm_num)]
    decide
  have e5 : intRepr 8192 = "8192" := by decide
  have e6 : intRepr 4096 = "4096" := by decide
  simp only [dllSetMetrics, setMetrics, getFPS, getFrameTime, getRenderedText,
    defaultOverlayConfig, if_true]
  simp only [e1, e2, e3, e4, e5, e6, String.empty_append, String.append_assoc]
  congr 1

theorem byteLenL_append (l1 l2 : List Char) :
    byteLenL (l1 ++ l2) = byteLenL l1 + byteLenL l2 := by
  induction l1 with
  | nil => simp [byteLenL]
  | cons c cs ih => simp [byteLenL, ih]; omega

theorem byteLen_append (a b : String) :
    byteLen (a ++ b) = byteLen a + byteLen b := by
  rw [byteLen, byteLen, byteLen, String.data_append, byteLenL_append]

theorem utf8Size_digitChar (n : ℕ) (h : n < 10) : (digitChar n).utf8Size = 1 := by
  interval_cases n <;> decide

theorem byteLenL_natDigits (fuel : ℕ) :
    ∀ n : ℕ, byteLenL (natDigits fuel n) = (natDigits fuel n).length := by
  induction fuel with
  | zero => intro n; rfl
  | succ fuel ih =>
      intro n
      by_cases h : n < 10
      · simp [natDigits, h, byteLenL, utf8Size_digitChar n h]
      · simp [natDigits, h, byteLenL_append, ih, byteLenL,
          utf8Size_digitChar (n % 10) (Nat.mod_lt _ (by norm_num))]

theorem natDigits_length_le (fuel : ℕ) :
    ∀ n k : ℕ, 1 ≤ k → n < 10 ^ k → (natDigits fuel n).length ≤ k := by
  induction fuel with
  | zero => intro n k hk _; simp [natDigits]
  | succ fuel ih =>
      intro n k hk h
      by_cases h10 : n < 10
      · simp [natDigits, h10]
        exact hk
      · have hk2 : 2 ≤ k := by
          rcases Nat.lt_or_ge k 2 with hlt | hge
          · interval_cases k <;> omega
          · exact hge
        have hdiv : n / 10 < 10 ^ (k - 1) := by
          rw [Nat.div_lt_iff_lt_mul (by norm_num)]
          have : 10 ^ (k - 1) * 10 = 10 ^ k := by
            rw [← pow_succ]
            congr 1
            omega
          omega
        have := ih (n / 10) (k - 1) (by omega) hdiv
        simp [natDigits, h10]
        omega

theorem byteLen_natRepr_le (n k : ℕ) (hk : 1 ≤ k) (h : n < 10 ^ k) :
    byteLen (natRepr n) ≤ k := by
  show byteLenL (natDigits (n + 1) n) ≤ k
  rw [byteLenL_natDigits]
  exact natDigits_length_le _ _ _ hk h

theorem rnd_toNat_lt_pow (q : ℚ) (k : ℕ) (hq : 0 ≤ q) (h : q + 1 / 2 < (10 : ℚ) ^ k) :
    (rnd q).toNat < 10 ^ k := by
  rw [rnd_eq_floor]
  have h0 : (0 : ℤ) ≤ ⌊q + 1 / 2⌋ := Int.floor_nonneg.mpr (by linarith)
  rw [Int.toNat_lt h0]
  have hfl : ⌊q + 1 / 2⌋ < (10 : ℤ) ^ k := Int.floor_lt.mpr (by push_cast; linarith)
  exact_mod_cast hfl

theorem byteLen_fmt1_le (q : ℚ) (h : |q| ≤ 2 ^ 129) : byteLen (fmt1 q) ≤ 42 := by
  have hn : (rnd (|q| * 10)).toNat < 10 ^ 40 := by
    have hq0 : (0 : ℚ) ≤ |q| * 10 := mul_nonneg (abs_nonneg q) (by norm_num)
    apply rnd_toNat_lt_pow _ _ hq0
    have h10 : |q| * 10 ≤ 2 ^ 129 * 10 := by
      apply mul_le_mul_of_nonneg_right h
      norm_num
    calc |q| * 10 + 1 / 2 ≤ 2 ^ 129 * 10 + 1 / 2 := by linarith
      _ < (10 : ℚ) ^ 40 := by norm_num
  simp only [fmt1]
  rw [byteLen_append, byteLen_append, byteLen_append]
  have hs : byteLen (if q < 0 then "-" else "") ≤ 1 := by
    split <;> decide
  have hdot : byteLen "." = 1 := by decide
  have hip : byteLen (natRepr ((rnd (|q| * 10)).toNat / 10)) ≤ 39 := by
    apply byteLen_natRepr_le _ 39 (by norm_num)
    rw [Nat.div_lt_iff_lt_mul (by norm_num)]
    have : (10 : ℕ) ^ 39 * 10 = 10 ^ 40 := by norm_num
    omega
  have hfr : byteLen (natRepr ((rnd (|q| * 10)).toNat % 10)) ≤ 1 := by
    apply byteLen_natRepr_le _ 1 (by norm_num)
    have : (rnd (|q| * 10)).toNat % 10 < 10 := Nat.mod_lt _ (by norm_num)
    simpa using this
  omega

theorem byteLen_fmt0_le (q : ℚ) (h : |q| ≤ 2 ^ 129) : byteLen (fmt0 q) ≤ 40 := by
  have hn : (rnd |q|).toNat < 10 ^ 39 := by
    apply rnd_toNat_lt_pow _ _ (abs_nonneg q)
    calc |q| + 1 / 2 ≤ 2 ^ 129 + 1 / 2 := by linarith
      _ < (10 : ℚ) ^ 39 := by norm_num
  simp only [fmt0]
  rw [byteLen_append]
  have hs : byteLen (if q < 0 then "-" else "") ≤ 1 := by
    split <;> decide
  have hd : byteLen (natRepr (rnd |q|).toNat) ≤ 39 :=
    byteLen_natRepr_le _ 39 (by norm_num) hn
  omega

theorem byteLen_intRepr_le (i : ℤ) (h : |i| ≤ 2 ^ 31) : byteLen (intRepr i) ≤ 11 := by
  have h1 : (i.natAbs : ℤ) ≤ 2 ^ 31 := by
    rwa [Int.abs_eq_natAbs] at h
  have h2 : i.natAbs < 10 ^ 10 := by
    have := lt_of_le_of_lt h1 (show (2 : ℤ) ^ 31 < 10 ^ 10 by norm_num)
    exact_mod_cast this
  simp only [intRepr]
  rw [byteLen_append]
  have hs : byteLen (if i < 0 then "-" else "") ≤ 1 := by
    split <;> decide
  have hd : byteLen (natRepr i.natAbs) ≤ 10 :=
    byteLen_natRepr_le _ 10 (by norm_num) h2
  omega

theorem sum_take_le_sum (l : List ℕ) (i : ℕ) : (l.take i).sum ≤ l.sum := by
  conv_rhs => rw [← List.take_append_drop i l]
  rw [List.sum_append]
  exact Nat.le_add_right _ _

/-- **C9**. Every `snprintf` write of `ImGuiOverlay::Render` stays inside
the 512-byte stack buffer: each running offset — the cumulative UTF-8 byte
length of the chunks written so far, i.e. every prefix sum of the chunk
lengths — stays strictly below 512, so `sizeof(buffer) - offset` never
underflows and `buffer + offset` never points past the end. The hypotheses
cover every machine input: each C `float` is finite with magnitude at most
`2^128 < 2^129`, and each C `int` has magnitude at most `2^31`. -/
theorem render_offsets_bounded (cfg : OverlayConfig) (m : OverlayMetrics)
    (hfps : |m.fps| ≤ 2 ^ 129) (hcpu : |m.cpuUsage| ≤ 2 ^ 129)
    (hcpuT : |m.cpuTemp| ≤ 2 ^ 129) (hgpu : |m.gpuUsage| ≤ 2 ^ 129)
    (hgpuT : |m.gpuTemp| ≤ 2 ^ 129) (hram : |m.ramUsage| ≤ 2 ^ 31)
    (hvram : |m.vramUsage| ≤ 2 ^ 31) :
    ∀ i : ℕ, (((renderChunks cfg m).map byteLen).take i).sum < 512 := by
  intro i
  have c1 : byteLen ("FPS: " ++ fmt1 m.fps ++ "\n") ≤ 48 := by
    rw [byteLen_append, byteLen_append]
    have := byteLen_fmt1_le m.fps hfps
    have l1 : byteLen "FPS: " = 5 := by decide
    have l2 : byteLen "\n" = 1 := by decide
    omega
  have c2 : byteLen ("CPU: " ++ fmt1 m.cpuUsage ++ "%") ≤ 48 := by
    rw [byteLen_append, byteLen_append]
    have := byteLen_fmt1_le m.cpuUsage hcpu
    have l1 : byteLen "CPU: " = 5 := by decide
    have l2 : byteLen "%" = 1 := by decide
    omega
  have c3 : byteLen (" (" ++ fmt0 m.cpuTemp ++ "°C)") ≤ 46 := by
    rw [byteLen_append, byteLen_append]
    have := byteLen_fmt0_le m.cpuTemp hcpuT
    have l1 : byteLen " (" = 2 := by decide
    have l2 : byteLen "°C)" = 4 := by decide
    omega
  have c4 : byteLen ("GPU: " ++ fmt1 m.gpuUsage ++ "%") ≤ 48 := by
    rw [byteLen_append, byteLen_append]
    have := byteLen_fmt1_le m.gpuUsage hgpu
    have l1 : byteLen "GPU: " = 5 := by decide
    have l2 : byteLen "%" = 1 := by decide
    omega
  have c5 : byteLen (" (" ++ fmt0 m.gpuTemp ++ "°C)") ≤ 46 := by
    rw [byteLen_append, byteLen_append]
    have := byteLen_fmt0_le m.gpuTemp hgpuT
    have l1 : byteLen " (" = 2 := by decide
    have l2 : byteLen "°C)" = 4 := by decide
    omega
  have c6 : byteLen ("RAM: " ++ intRepr m.ramUsage ++ " MB\n") ≤ 20 := by
    rw [byteLen_append, byteLen_append]
    have := byteLen_intRepr_le m.ramUsage hram
    have l1 : byteLen "RAM: " = 5 := by decide
    have l2 : byteLen " MB\n" = 4 := by decide
    omega
  have c7 : byteLen ("VRAM: " ++ intRepr m.vramUsage ++ " MB\n") ≤ 21 := by
    rw [byteLen_append, byteLen_append]
    have := byteLen_intRepr_le m.vramUsage hvram
    have l1 : byteLen "VRAM: " = 6 := by decide
    have l2 : byteLen " MB\n" = 4 := by decide
    omega
  have cn : byteLen "\n" = 1 := by decide
  have htot : ((renderChunks cfg m).map byteLen).sum < 512 := by
    obtain ⟨ff, fs, col, op, f1, f2, f3, f4, f5⟩ := cfg
    cases f1 <;> cases f2 <;> cases f3 <;> cases f4 <;> cases f5 <;>
      simp only [renderChunks, if_true, if_false, Bool.false_eq_true,
        List.append_nil, List.nil_append, List.cons_append, List.map_cons,
        List.map_nil, List.sum_cons, List.sum_nil] <;>
      omega
  exact lt_of_le_of_lt (sum_take_le_sum _ i) htot

/-- Witness for `render_offsets_bounded`: the all-zero snapshot under the
default configuration keeps every write offset inside the buffer. -/
theorem render_offsets_bounded_witness :
    (((renderChunks defaultOverlayConfig zeroMetrics).map byteLen).take 3).sum < 512 :=
  render_offsets_bounded defaultOverlayConfig zeroMetrics
    (by norm_num [zeroMetrics]) (by norm_num [zeroMetrics])
    (by norm_num [zeroMetrics]) (by norm_num [zeroMetrics])
    (by norm_num [zeroMetrics]) (by norm_num [zeroMetrics])
    (by norm_num [zeroMetrics]) 3

end GameRMCR
